import Mathlib

/-!
Verification of the `dli.py` PDU command-line client.

We shallowly embed the client (class `DLIPDU` and the relevant CLI commands)
in Lean.  The HTTP transport is modelled as an oracle `net : HttpRequest →
Response`; each client operation returns the list of requests it issued
together with its result, so "issues exactly one GET", "performs no network
request", and similar claims are statements about that request trace.
Response bodies are modelled as already-parsed JSON values (`r.json()` in the
source parses the body text; the text/value round trip is not at issue in any
claim).
-/

/-- JSON values, as produced by `requests.Response.json()`. -/
inductive Json where
  | null : Json
  | bool : Bool → Json
  | num : Int → Json
  | str : String → Json
  | arr : List Json → Json
  | obj : List (String × Json) → Json

/-- First binding of a key in an association list (JSON objects are assumed
to have distinct keys, as `json.loads` produces). -/
def lookupField : List (String × Json) → String → Option Json
  | [], _ => none
  | (k', v) :: fs, k => if k' = k then some v else lookupField fs k

/-- Field access `o[k]` on a JSON object; `none` models the `KeyError` /
`TypeError` raised when the key is absent or the value is not a dict. -/
def Json.getField : Json → String → Option Json
  | Json.obj fs, k => lookupField fs k
  | _, _ => none

/-- The leading/trailing-whitespace stripping `int(s)` performs before
parsing. -/
def pyStrip (cs : List Char) : List Char :=
  ((cs.dropWhile Char.isWhitespace).reverse.dropWhile Char.isWhitespace).reverse

/-- Python `int(s)` on a decimal string token: strip surrounding whitespace,
accept an optional sign followed by a non-empty ASCII digit run, and fail
(`ValueError`, modelled as `none`) on anything else.  (Underscore grouping and
non-ASCII digits, which CPython also accepts, are not modelled; no claim
involves them.) -/
def pyParseInt (s : String) : Option Int :=
  let digitRun : List Char → Option Nat := fun ds =>
    if ds.isEmpty then none
    else if ds.all Char.isDigit then
      some (ds.foldl (fun acc c => acc * 10 + (c.toNat - 48)) 0)
    else none
  match pyStrip s.toList with
  | '-' :: rest => (digitRun rest).map (fun n => -(n : Int))
  | '+' :: rest => (digitRun rest).map (fun n => (n : Int))
  | cs => (digitRun cs).map (fun n => (n : Int))

/-- HTTP method of a request issued by the client. -/
inductive Method where
  | GET : Method
  | PUT : Method
  | POST : Method
deriving DecidableEq

/-- One HTTP request issued through the `requests.Session`.  `body` is the
`json=` payload of `Session.put` (`none` for requests sent without a body). -/
structure HttpRequest where
  method : Method
  url : String
  body : Option Json

/-- The device's HTTP response: status code and (parsed) body. -/
structure Response where
  status : Nat
  body : Json

/-- The statuses for which `requests.Response.raise_for_status()` raises
`HTTPError`: client errors 4xx and server errors 5xx. -/
def isErrorStatus (s : Nat) : Bool :=
  (400 ≤ s && s < 500) || (500 ≤ s && s < 600)

/-- Errors surfaced by the client.  `remoteError` is the `HTTPError` from
`raise_for_status` (the spec's `RemoteError`), carrying the response's status
and body; `keyError` is the `KeyError` raised by `_outlet2idx` (the spec's
`NotFoundError`) or by a missing `name` field. -/
inductive PduError where
  | remoteError : Nat → Json → PduError
  | keyError : String → PduError

/-- Embeds `Response.raise_for_status()`: error on a 4xx/5xx status, no-op
otherwise. -/
def raiseForStatus (r : Response) : Except PduError Unit :=
  if isErrorStatus r.status then Except.error (PduError.remoteError r.status r.body)
  else Except.ok ()

/-- The `DLIPDU` client object: the session's auth and headers carry no
behaviour relevant to the claims, so only the host survives the embedding. -/
structure DLIPDU where
  host : String

/-- Embeds `DLIPDU._pathto`: `urlunparse(ParseResult('http', host, endpoint, ...))`. -/
def DLIPDU.pathto (pdu : DLIPDU) (endpoint : String) : String :=
  "http://" ++ pdu.host ++ endpoint

/-- The PUT request issued by `set_state` for a given index and state. -/
def setStateReq (pdu : DLIPDU) (outlet_idx : Int) (state : Bool) : HttpRequest :=
  { method := Method.PUT
    url := pdu.pathto ("/restapi/relay/outlets/" ++ toString outlet_idx ++ "/state/")
    body := some (Json.bool state) }

/-- The POST request issued by `cycle`. -/
def cycleReq (pdu : DLIPDU) (outlet_idx : Int) : HttpRequest :=
  { method := Method.POST
    url := pdu.pathto ("/restapi/relay/outlets/" ++ toString outlet_idx ++ "/cycle/")
    body := none }

/-- The GET request issued by `configured_state`. -/
def configuredReq (pdu : DLIPDU) (outlet_idx : Int) : HttpRequest :=
  { method := Method.GET
    url := pdu.pathto ("/restapi/relay/outlets/" ++ toString outlet_idx ++ "/state/")
    body := none }

/-- The GET request issued by `physical_state`. -/
def physicalReq (pdu : DLIPDU) (outlet_idx : Int) : HttpRequest :=
  { method := Method.GET
    url := pdu.pathto ("/restapi/relay/outlets/" ++ toString outlet_idx ++ "/physical_state/")
    body := none }

/-- The GET request issued by `outlets`. -/
def outletsReq (pdu : DLIPDU) : HttpRequest :=
  { method := Method.GET
    url := pdu.pathto "/restapi/relay/outlets/"
    body := none }

/-- Embeds `DLIPDU.set_state`: PUT the desired boolean, then `raise_for_status`. -/
def DLIPDU.set_state (pdu : DLIPDU) (net : HttpRequest → Response)
    (outlet_idx : Int) (state : Bool) : List HttpRequest × Except PduError Unit :=
  let req := setStateReq pdu outlet_idx state
  ([req], raiseForStatus (net req))

/-- Embeds `DLIPDU.on`: `self.set_state(outlet_idx, True)`. -/
def DLIPDU.on (pdu : DLIPDU) (net : HttpRequest → Response)
    (outlet_idx : Int) : List HttpRequest × Except PduError Unit :=
  pdu.set_state net outlet_idx true

/-- Embeds `DLIPDU.off`: the source (dli.py line 30) also calls
`self.set_state(outlet_idx, True)`. -/
def DLIPDU.off (pdu : DLIPDU) (net : HttpRequest → Response)
    (outlet_idx : Int) : List HttpRequest × Except PduError Unit :=
  pdu.set_state net outlet_idx true

/-- Embeds `DLIPDU.cycle`: POST to the cycle endpoint, then `raise_for_status`. -/
def DLIPDU.cycle (pdu : DLIPDU) (net : HttpRequest → Response)
    (outlet_idx : Int) : List HttpRequest × Except PduError Unit :=
  let req := cycleReq pdu outlet_idx
  ([req], raiseForStatus (net req))

/-- Embeds `DLIPDU.configured_state`: GET the state endpoint and return `r.json()`;
no `raise_for_status`. -/
def DLIPDU.configured_state (pdu : DLIPDU) (net : HttpRequest → Response)
    (outlet_idx : Int) : List HttpRequest × Json :=
  let req := configuredReq pdu outlet_idx
  ([req], (net req).body)

/-- Embeds `DLIPDU.physical_state`: GET the physical_state endpoint and return
`r.json()`; no `raise_for_status`. -/
def DLIPDU.physical_state (pdu : DLIPDU) (net : HttpRequest → Response)
    (outlet_idx : Int) : List HttpRequest × Json :=
  let req := physicalReq pdu outlet_idx
  ([req], (net req).body)

/-- Embeds `DLIPDU.outlets`: GET the outlet collection and return `r.json()`;
no `raise_for_status`. -/
def DLIPDU.outlets (pdu : DLIPDU) (net : HttpRequest → Response) :
    List HttpRequest × Json :=
  let req := outletsReq pdu
  ([req], (net req).body)

/-- The `for i, o in enumerate(outlets): if o['name'] == outlet: return i`
loop of `_outlet2idx`, with the running index made explicit.  A list element
without a `name` field makes `o['name']` raise (`KeyError`/`TypeError`);
a `name` value that is not a string simply compares unequal to the token,
as Python `==` between a non-str and a str is `False`. -/
def scanName (outlet : String) : List Json → Nat → Except PduError Int
  | [], _ =>
      Except.error (PduError.keyError ("no outlet called `" ++ outlet ++ "` exists"))
  | o :: os, i =>
      match Json.getField o "name" with
      | none => Except.error (PduError.keyError "name")
      | some (Json.str s) =>
          if s = outlet then Except.ok (i : Int) else scanName outlet os (i + 1)
      | some _ => scanName outlet os (i + 1)

/-- Embeds `DLIPDU._outlet2idx`: try `int(outlet)`; on `ValueError`, fetch the
outlet list and scan it for the name.  A non-array outlets body makes the
`enumerate`/`o['name']` machinery raise, modelled as a `keyError`. -/
def DLIPDU.outlet2idx (pdu : DLIPDU) (net : HttpRequest → Response)
    (outlet : String) : List HttpRequest × Except PduError Int :=
  match pyParseInt outlet with
  | some n => ([], Except.ok n)
  | none =>
      let r := pdu.outlets net
      match r.2 with
      | Json.arr os => (r.1, scanName outlet os 0)
      | _ => (r.1, Except.error (PduError.keyError "name"))

/-! ### Command dispatcher (the CLI commands over the client) -/

/-- The `set` CLI command: `pdu.set_state(pdu._outlet2idx(outlet), state == 'on')`.
If outlet resolution raises, `set_state` is never reached. -/
def cliSet (pdu : DLIPDU) (net : HttpRequest → Response)
    (outlet state : String) : List HttpRequest × Except PduError Unit :=
  let r := pdu.outlet2idx net outlet
  match r.2 with
  | Except.error e => (r.1, Except.error e)
  | Except.ok idx =>
      let r2 := pdu.set_state net idx (state == "on")
      (r.1 ++ r2.1, r2.2)

/-- One outlet record of the device's outlet list, with the dict fields read
by the `outlets` CLI command (`name`, `state`, `physical_state`,
`cycle_delay`); `cycle_delay` is a JSON number or `null`. -/
structure Outlet where
  name : String
  state : Bool
  physical_state : Bool
  cycle_delay : Option Int

/-- Embeds `_on(x)`: `'on' if x else 'off'`. -/
def pyOn (x : Bool) : String :=
  if x then "on" else "off"

/-- Embeds `str(outlet['cycle_delay'] or '〜')`: Python `or` yields the placeholder
for every falsy left operand, i.e. for `None` and also for `0`; otherwise
`str` of the number. -/
def pyOrDelay : Option Int → String
  | none => "〜"
  | some d => if d = 0 then "〜" else toString d

/-- One row added by the `outlets` CLI command for the outlet at index `i`:
`(str(i), name, _on(state), _on(physical_state), str(cycle_delay or '〜'))`. -/
def renderRow (i : Nat) (o : Outlet) : List String :=
  [toString i, o.name, pyOn o.state, pyOn o.physical_state, pyOrDelay o.cycle_delay]

/-- The full table body of the `outlets` CLI command:
`for i, outlet in enumerate(...): table.add_row(...)`. -/
def renderOutlets (os : List Outlet) : List (List String) :=
  os.enum.map (fun p => renderRow p.1 p.2)

/-! ### Spec-side definitions (for refinement-style claims) -/

/-- Whether a JSON value is an object carrying a `name` field. -/
def hasName (o : Json) : Bool :=
  (Json.getField o "name").isSome

/-- Whether the outlet object's `name` field is exactly the token. -/
def nameMatches (tok : String) (o : Json) : Bool :=
  match Json.getField o "name" with
  | some (Json.str s) => s = tok
  | _ => false

/-- Written from the spec's words for the name path of `resolveOutlet`:
a linear scan returning the position of the first outlet whose `name` field
exactly equals the token, failing with `NotFoundError` when no name matches
(`i` is the position of the list head in the full outlet list). -/
def specNameLookup (tok : String) : List Json → Nat → Except PduError Int
  | [], _ =>
      Except.error (PduError.keyError ("no outlet called `" ++ tok ++ "` exists"))
  | o :: os, i =>
      if nameMatches tok o then Except.ok (i : Int)
      else specNameLookup tok os (i + 1)

/-! ### Concrete fixtures used by witnesses and counterexamples -/

/-- A client for a fixed host. -/
def pdu0 : DLIPDU := { host := "pdu.example.net" }

/-- A device that answers every request with the same response. -/
def netConst (resp : Response) : HttpRequest → Response :=
  fun _ => resp

/-- A device answering HTTP 200 with body `true`. -/
def net200 : HttpRequest → Response :=
  netConst { status := 200, body := Json.bool true }

/-- A device answering HTTP 500 with an error body. -/
def net500 : HttpRequest → Response :=
  netConst { status := 500, body := Json.str "Internal Server Error" }

/-- The outlet list `[{name:"lamp"}, {name:"pump"}, {name:"fan"}]`. -/
def lpfOutlets : List Json :=
  [Json.obj [("name", Json.str "lamp")],
   Json.obj [("name", Json.str "pump")],
   Json.obj [("name", Json.str "fan")]]

/-- A device reporting the lamp/pump/fan outlet list. -/
def netLPF : HttpRequest → Response :=
  netConst { status := 200, body := Json.arr lpfOutlets }

/-- A device reporting a single outlet named "lamp". -/
def netOne : HttpRequest → Response :=
  netConst { status := 200, body := Json.arr [Json.obj [("name", Json.str "lamp")]] }

/-- A device reporting two outlets that share the name "pump". -/
def netDup : HttpRequest → Response :=
  netConst { status := 200,
             body := Json.arr [Json.obj [("name", Json.str "pump")],
                               Json.obj [("name", Json.str "pump")]] }

/-! ### Helper lemmas -/

/-- On a list in which every element carries a `name` field, the source's
scan agrees with the spec's linear name lookup. -/
theorem scanName_eq_specNameLookup (tok : String) :
    ∀ (os : List Json) (i : Nat), os.all hasName = true →
      scanName tok os i = specNameLookup tok os i := by
  intro os
  induction os with
  | nil => intro i _; rfl
  | cons o os ih =>
      intro i h
      simp only [List.all_cons, Bool.and_eq_true] at h
      obtain ⟨ho, hos⟩ := h
      unfold hasName at ho
      cases hv : Json.getField o "name" with
      | none => rw [hv] at ho; simp at ho
      | some v =>
          cases v with
          | str s =>
              by_cases hs : s = tok
              · simp [scanName, specNameLookup, nameMatches, hv, hs]
              · simp [scanName, specNameLookup, nameMatches, hv, hs, ih (i + 1) hos]
          | null => simp [scanName, specNameLookup, nameMatches, hv, ih (i + 1) hos]
          | bool b => simp [scanName, specNameLookup, nameMatches, hv, ih (i + 1) hos]
          | num n => simp [scanName, specNameLookup, nameMatches, hv, ih (i + 1) hos]
          | arr xs => simp [scanName, specNameLookup, nameMatches, hv, ih (i + 1) hos]
          | obj fs => simp [scanName, specNameLookup, nameMatches, hv, ih (i + 1) hos]

/-- Any index the name scan accepts lies between the running index and the
running index plus the remaining list length. -/
theorem scanName_ok_bounds (tok : String) :
    ∀ (os : List Json) (i : Nat) (j : Int),
      scanName tok os i = Except.ok j →
      (i : Int) ≤ j ∧ j < (i : Int) + os.length := by
  intro os
  induction os with
  | nil => intro i j h; simp [scanName] at h
  | cons o os ih =>
      intro i j h
      have step : scanName tok os (i + 1) = Except.ok j →
          (i : Int) ≤ j ∧ j < (i : Int) + ((o :: os).length : Nat) := by
        intro h'
        have := ih (i + 1) j h'
        simp only [List.length_cons]
        push_cast at this ⊢
        omega
      cases hv : Json.getField o "name" with
      | none => simp [scanName, hv] at h
      | some v =>
          cases v with
          | str s =>
              by_cases hs : s = tok
              · simp only [scanName, hv, hs, if_pos rfl] at h
                cases h
                simp only [List.length_cons]
                push_cast
                omega
              · simp only [scanName, hv] at h
                rw [if_neg hs] at h
                exact step h
          | null => simp only [scanName, hv] at h; exact step h
          | bool b => simp only [scanName, hv] at h; exact step h
          | num n => simp only [scanName, hv] at h; exact step h
          | arr xs => simp only [scanName, hv] at h; exact step h
          | obj fs => simp only [scanName, hv] at h; exact step h

/-- Row `i` of the rendered outlet table is the rendering of outlet `i`. -/
theorem renderOutlets_get? (os : List Outlet) (i : Nat) :
    (renderOutlets os).get? i = (os.get? i).map (renderRow i) := by
  simp only [renderOutlets, List.getElem?_map, List.getElem?_enum, List.get?_eq_getElem?]
  cases os[i]? <;> rfl

/-- A device reporting one outlet literally named "3" (at index 0). -/
def netNamed3 : HttpRequest → Response :=
  netConst { status := 200, body := Json.arr [Json.obj [("name", Json.str "3")]] }

/-- Replace every response's status, keeping the bodies: used to state that
the read operations are insensitive to the HTTP status code. -/
def withStatus (net : HttpRequest → Response) (s : Nat) : HttpRequest → Response :=
  fun r => { status := s, body := (net r).body }

/-- The claim's example outlet with `cycle_delay` set to 0 instead of null. -/
def outletA0 : Outlet :=
  { name := "A", state := true, physical_state := false, cycle_delay := some 0 }

/-- The claim's example outlet `{name:"A", state:true, physical_state:false,
cycle_delay:null}`. -/
def outletAnull : Outlet :=
  { name := "A", state := true, physical_state := false, cycle_delay := none }

/-! ### Claims -/

/-- C1: the claim says `off(i)` issues a state-setting write with desired
state `false`.  The source's `off` (dli.py line 30) calls
`set_state(outlet_idx, True)`: evaluated at outlet 0 against a concrete
device, the single request issued by `off` carries desired state `true` —
the same request `on` issues — and that request differs from the
desired-state-`false` request.  The spec itself flags this as a defect of
the source, so the code, not the claim, is wrong. -/
theorem spec_C1_off_sends_true :
    (DLIPDU.off pdu0 net200 0).1 = [setStateReq pdu0 0 true]
    ∧ (DLIPDU.on pdu0 net200 0).1 = [setStateReq pdu0 0 true]
    ∧ setStateReq pdu0 0 true ≠ setStateReq pdu0 0 false := by
  refine ⟨rfl, rfl, ?_⟩
  intro h
  have hb := congrArg HttpRequest.body h
  simp [setStateReq] at hb

/-- C2: a token that Python's `int` accepts is returned as that integer with
an empty request trace — name resolution (and hence the network) is never
consulted, whatever the device would have answered. -/
theorem spec_C2_numeric_token (pdu : DLIPDU) (net : HttpRequest → Response)
    (tok : String) (n : Int) (h : pyParseInt tok = some n) :
    DLIPDU.outlet2idx pdu net tok = ([], Except.ok n) := by
  simp [DLIPDU.outlet2idx, h]

/-- C2 witness: `resolveOutlet "3"` returns 3 with no request, even against
a device whose outlet list contains an outlet literally named "3". -/
theorem spec_C2_numeric_token_witness :
    pyParseInt "3" = some 3
    ∧ DLIPDU.outlet2idx pdu0 netNamed3 "3" = ([], Except.ok 3)
    ∧ (netNamed3 (outletsReq pdu0)).body
        = Json.arr [Json.obj [("name", Json.str "3")]] :=
  ⟨rfl, spec_C2_numeric_token pdu0 netNamed3 "3" 3 rfl, rfl⟩

/-- C4: `set_state` issues exactly the one PUT, succeeds exactly when the
response status is not a 4xx/5xx error status, and on an error status fails
with a `RemoteError` carrying that status and the response body. -/
theorem spec_C4_set_state_status (pdu : DLIPDU) (net : HttpRequest → Response)
    (idx : Int) (state : Bool) :
    (pdu.set_state net idx state).1 = [setStateReq pdu idx state]
    ∧ ((pdu.set_state net idx state).2 = Except.ok ()
        ↔ isErrorStatus (net (setStateReq pdu idx state)).status = false)
    ∧ (isErrorStatus (net (setStateReq pdu idx state)).status = true →
        (pdu.set_state net idx state).2
          = Except.error (PduError.remoteError
              (net (setStateReq pdu idx state)).status
              (net (setStateReq pdu idx state)).body)) := by
  refine ⟨rfl, ?_, ?_⟩
  · unfold DLIPDU.set_state raiseForStatus
    cases h : isErrorStatus (net (setStateReq pdu idx state)).status <;> simp [h]
  · intro h
    simp [DLIPDU.set_state, raiseForStatus, h]

/-- C4 witness: `setState(2, true)` succeeds under HTTP 200 and fails with
`RemoteError` carrying status 500 and the body under HTTP 500. -/
theorem spec_C4_set_state_status_witness :
    isErrorStatus 500 = true
    ∧ (pdu0.set_state net500 2 true).2
        = Except.error (PduError.remoteError 500 (Json.str "Internal Server Error"))
    ∧ isErrorStatus 200 = false
    ∧ (pdu0.set_state net200 2 true).2 = Except.ok () :=
  ⟨rfl, (spec_C4_set_state_status pdu0 net500 2 true).2.2 rfl,
   rfl, (spec_C4_set_state_status pdu0 net200 2 true).2.1.mpr rfl⟩

/-- C6: `outlets` issues exactly one GET, to `/restapi/relay/outlets/`, and
returns the parsed response body unmodified (so device order, and hence
index = position, is preserved). -/
theorem spec_C6_outlets_single_get (pdu : DLIPDU) (net : HttpRequest → Response) :
    DLIPDU.outlets pdu net
      = ([{ method := Method.GET,
            url := pdu.pathto "/restapi/relay/outlets/",
            body := none }],
         (net (outletsReq pdu)).body) := rfl

/-- C9: the read operations `configured_state`, `physical_state` and
`outlets` return the parsed response body for every device behaviour — their
result type carries no error and, unlike the writes, no `raise_for_status`
is applied: changing every response status (to 500, or anything else) while
keeping bodies leaves their results unchanged. -/
theorem spec_C9_reads_ignore_status (pdu : DLIPDU) (net : HttpRequest → Response)
    (idx : Int) (s : Nat) :
    (DLIPDU.configured_state pdu net idx).2 = (net (configuredReq pdu idx)).body
    ∧ (DLIPDU.physical_state pdu net idx).2 = (net (physicalReq pdu idx)).body
    ∧ (DLIPDU.outlets pdu net).2 = (net (outletsReq pdu)).body
    ∧ (DLIPDU.configured_state pdu (withStatus net s) idx).2
        = (DLIPDU.configured_state pdu net idx).2
    ∧ (DLIPDU.physical_state pdu (withStatus net s) idx).2
        = (DLIPDU.physical_state pdu net idx).2
    ∧ (DLIPDU.outlets pdu (withStatus net s)).2 = (DLIPDU.outlets pdu net).2 :=
  ⟨rfl, rfl, rfl, rfl, rfl, rfl⟩

/-- C3: on a non-numeric token, over a device-reported outlet array whose
elements all carry a `name` field, `_outlet2idx` issues the one outlets GET
and behaves exactly as the spec's linear name lookup: the position of the
first outlet whose `name` equals the token, or the `NotFoundError`-style
`KeyError` when no name matches. -/
theorem spec_C3_name_resolution (pdu : DLIPDU) (net : HttpRequest → Response)
    (tok : String) (os : List Json)
    (h1 : pyParseInt tok = none)
    (h2 : (net (outletsReq pdu)).body = Json.arr os)
    (h3 : os.all hasName = true) :
    (pdu.outlet2idx net tok).2 = specNameLookup tok os 0
    ∧ (pdu.outlet2idx net tok).1 = [outletsReq pdu] := by
  constructor
  · simp [DLIPDU.outlet2idx, h1, DLIPDU.outlets, h2,
      scanName_eq_specNameLookup tok os 0 h3]
  · simp [DLIPDU.outlet2idx, h1, DLIPDU.outlets, h2]

/-- C3 witness: over `[{name:"lamp"}, {name:"pump"}, {name:"fan"}]`,
`resolveOutlet "pump"` returns 1 and `resolveOutlet "missing"` fails with
the no-such-outlet `KeyError`. -/
theorem spec_C3_name_resolution_witness :
    (DLIPDU.outlet2idx pdu0 netLPF "pump").2 = specNameLookup "pump" lpfOutlets 0
    ∧ specNameLookup "pump" lpfOutlets 0 = Except.ok 1
    ∧ (DLIPDU.outlet2idx pdu0 netLPF "missing").2
        = specNameLookup "missing" lpfOutlets 0
    ∧ specNameLookup "missing" lpfOutlets 0
        = Except.error (PduError.keyError "no outlet called `missing` exists") :=
  ⟨(spec_C3_name_resolution pdu0 netLPF "pump" lpfOutlets rfl rfl rfl).1, rfl,
   (spec_C3_name_resolution pdu0 netLPF "missing" lpfOutlets rfl rfl rfl).1, rfl⟩

/-- C5 counterexample: the claim says `resolveOutlet` never yields an index
outside `[0, N)` and never silently picks among outlets sharing the name.
Against a device reporting one outlet (N = 1), the numeric token "5" resolves
to 5 with no validation; and against two outlets both named "pump", the
token "pump" silently resolves to the first (index 0). -/
theorem spec_C5_counterexample :
    DLIPDU.outlet2idx pdu0 netOne "5" = ([], Except.ok 5)
    ∧ (netOne (outletsReq pdu0)).body
        = Json.arr [Json.obj [("name", Json.str "lamp")]]
    ∧ ([Json.obj [("name", Json.str "lamp")]] : List Json).length = 1
    ∧ ¬((5 : Int) < 1)
    ∧ (DLIPDU.outlet2idx pdu0 netDup "pump").2 = Except.ok 0 :=
  ⟨rfl, rfl, rfl, by decide, rfl⟩

/-- C5 amended: indices produced by the *name* path of `resolveOutlet` are
always in `[0, N)` where N is the length of the device-reported outlet array;
numeric tokens are returned as parsed, without range validation. -/
theorem spec_C5_amended (pdu : DLIPDU) (net : HttpRequest → Response)
    (tok : String) (os : List Json) (j : Int)
    (h1 : pyParseInt tok = none)
    (h2 : (net (outletsReq pdu)).body = Json.arr os)
    (h3 : (pdu.outlet2idx net tok).2 = Except.ok j) :
    0 ≤ j ∧ j < (os.length : Int) := by
  have hres : scanName tok os 0 = Except.ok j := by
    simpa [DLIPDU.outlet2idx, h1, DLIPDU.outlets, h2] using h3
  have hb := scanName_ok_bounds tok os 0 j hres
  simpa using hb

/-- C5 amended witness: "fan" resolves to 2, inside `[0, 3)`. -/
theorem spec_C5_amended_witness :
    (DLIPDU.outlet2idx pdu0 netLPF "fan").2 = Except.ok 2
    ∧ (0 ≤ (2 : Int) ∧ (2 : Int) < (lpfOutlets.length : Int)) :=
  ⟨rfl, spec_C5_amended pdu0 netLPF "fan" lpfOutlets 2 rfl rfl rfl⟩

/-- C7: `cycle` issues exactly one POST, to
`/restapi/relay/outlets/{i}/cycle/`, with no body and no further requests
(in particular nothing depending on the outlet's `cycle_delay`); it succeeds
exactly when the acknowledging status is not 4xx/5xx and otherwise fails
with a `RemoteError` carrying status and body. -/
theorem spec_C7_cycle (pdu : DLIPDU) (net : HttpRequest → Response) (idx : Int) :
    (pdu.cycle net idx).1 = [cycleReq pdu idx]
    ∧ (cycleReq pdu idx).method = Method.POST
    ∧ (cycleReq pdu idx).url
        = pdu.pathto ("/restapi/relay/outlets/" ++ toString idx ++ "/cycle/")
    ∧ ((pdu.cycle net idx).2 = Except.ok ()
        ↔ isErrorStatus (net (cycleReq pdu idx)).status = false)
    ∧ (isErrorStatus (net (cycleReq pdu idx)).status = true →
        (pdu.cycle net idx).2
          = Except.error (PduError.remoteError (net (cycleReq pdu idx)).status
              (net (cycleReq pdu idx)).body)) := by
  refine ⟨rfl, rfl, rfl, ?_, ?_⟩
  · unfold DLIPDU.cycle raiseForStatus
    cases h : isErrorStatus (net (cycleReq pdu idx)).status <;> simp [h]
  · intro h
    simp [DLIPDU.cycle, raiseForStatus, h]

/-- C7 witness: `cycle(0)` posts to the literal URL
`/restapi/relay/outlets/0/cycle/` (one request; acknowledged with HTTP 200 it
succeeds, and under HTTP 500 it fails with `RemoteError` status 500). -/
theorem spec_C7_cycle_witness :
    (pdu0.cycle net500 0).1
      = [{ method := Method.POST,
           url := "http://pdu.example.net/restapi/relay/outlets/0/cycle/",
           body := none }]
    ∧ (pdu0.cycle net500 0).2
        = Except.error (PduError.remoteError 500 (Json.str "Internal Server Error"))
    ∧ (pdu0.cycle net200 0).2 = Except.ok () :=
  ⟨(spec_C7_cycle pdu0 net500 0).1.trans (by rfl),
   (spec_C7_cycle pdu0 net500 0).2.2.2.2 rfl,
   (spec_C7_cycle pdu0 net200 0).2.2.2.1.mpr rfl⟩

/-- C8 counterexample: the claim says a non-null `cycle_delay` is rendered as
its numeric value; but the code's `cycle_delay or '〜'` is falsy for 0, so an
outlet with `cycle_delay = 0` (not null) is rendered with the placeholder,
not "0". -/
theorem spec_C8_counterexample :
    outletA0.cycle_delay ≠ none
    ∧ renderRow 0 outletA0 = ["0", "A", "on", "off", "〜"]
    ∧ "〜" ≠ toString (0 : Int) :=
  ⟨by decide, rfl, by decide⟩

/-- C8 amended: each outlet is rendered as one row at its list position,
with index, name, configured and physical state as on/off, and `cycle_delay`
rendered as its numeric value when non-null and non-zero, and as the
placeholder "〜" (device default) when null *or zero*. -/
theorem spec_C8_amended (i : Nat) (o : Outlet) (os : List Outlet) :
    renderRow i o
      = [toString i, o.name, pyOn o.state, pyOn o.physical_state,
         pyOrDelay o.cycle_delay]
    ∧ pyOn true = "on"
    ∧ pyOn false = "off"
    ∧ (o.cycle_delay = none ∨ o.cycle_delay = some 0 →
        pyOrDelay o.cycle_delay = "〜")
    ∧ (∀ d : Int, o.cycle_delay = some d → d ≠ 0 →
        pyOrDelay o.cycle_delay = toString d)
    ∧ (renderOutlets os).length = os.length
    ∧ (renderOutlets os).get? i = (os.get? i).map (renderRow i) := by
  refine ⟨rfl, rfl, rfl, ?_, ?_, ?_, renderOutlets_get? os i⟩
  · rintro (h | h) <;> simp [pyOrDelay, h]
  · intro d hd hz
    simp [pyOrDelay, hd, hz]
  · simp [renderOutlets]

/-- C8 amended witness: the claim's example outlet
`{name:"A", state:true, physical_state:false, cycle_delay:null}` renders as
index "0", name "A", configured "on", physical "off", placeholder "〜". -/
theorem spec_C8_amended_witness :
    renderRow 0 outletAnull = ["0", "A", "on", "off", "〜"]
    ∧ pyOrDelay none = "〜" :=
  ⟨(spec_C8_amended 0 outletAnull []).1.trans (by rfl),
   (spec_C8_amended 0 outletAnull []).2.2.2.1 (Or.inl rfl)⟩

/-- C10: the `set` CLI command calls `set_state` directly with
`state == 'on'`: after a successful resolution to index `idx`, `set <outlet>
off` appends exactly one PUT with desired state `false` to the resolution's
requests, and `set <outlet> on` one with desired state `true`. -/
theorem spec_C10_cli_set (pdu : DLIPDU) (net : HttpRequest → Response)
    (outlet : String) (idx : Int)
    (h : (pdu.outlet2idx net outlet).2 = Except.ok idx) :
    (cliSet pdu net outlet "off").1
      = (pdu.outlet2idx net outlet).1 ++ [setStateReq pdu idx false]
    ∧ (cliSet pdu net outlet "on").1
      = (pdu.outlet2idx net outlet).1 ++ [setStateReq pdu idx true]
    ∧ (setStateReq pdu idx false).body = some (Json.bool false)
    ∧ (setStateReq pdu idx true).body = some (Json.bool true) := by
  have hoff : (("off" == "on") : Bool) = false := rfl
  have hon : (("on" == "on") : Bool) = true := rfl
  refine ⟨?_, ?_, rfl, rfl⟩
  · simp [cliSet, h, DLIPDU.set_state, hoff]
  · simp [cliSet, h, DLIPDU.set_state, hon]

/-- C10 witness: with outlets lamp/pump/fan, `set pump off` issues the
resolution GET followed by a PUT carrying `false`. -/
theorem spec_C10_cli_set_witness :
    (DLIPDU.outlet2idx pdu0 netLPF "pump").2 = Except.ok 1
    ∧ (cliSet pdu0 netLPF "pump" "off").1
        = (DLIPDU.outlet2idx pdu0 netLPF "pump").1 ++ [setStateReq pdu0 1 false] :=
  ⟨rfl, (spec_C10_cli_set pdu0 netLPF "pump" 1 rfl).1⟩
